import Mathlib

/-!
Verification of the hardware-timer abstraction layer
(`src/stack/framework/hal/inc/hwtimer.h`) of the dash7-ap-open-source-stack
repository.

The repository snapshot contains only the public header: the API contracts
(documented return codes, the frequency enumeration, the 16-bit tick type,
and the inline `hw_timer_schedule_delay`) are embedded from that source
file; the timer-registry implementation behind the remaining prototypes is
not present, so its behaviour is modelled from the specification
(spec.md sections 3, 4 and 4.4), as noted on each such definition.

Ticks are 16-bit unsigned (`hwtimer_tick_t` is `uint16_t`), embedded as
natural numbers reduced modulo 2^16 = 65536 wherever the C type would wrap.
Callbacks (`timer_callback_t`, a possibly-null function pointer) are
embedded as `Option Nat`: an opaque identifier for the installed function,
`none` standing for the null pointer.  Callback invocations performed by
the interrupt-dispatch machinery are recorded as an explicit event list.
-/

/-- Error codes of `errors.h` (not part of the snapshot; the names are the
ones used by the header's return-value documentation). -/
inductive error_t where
  | SUCCESS
  | EALREADY
  | ESIZE
  | EINVAL
  | EOFF
deriving DecidableEq, Repr

/-- `HWTIMER_FREQ_1MS` from the enum in hwtimer.h (value 0). -/
def HWTIMER_FREQ_1MS : Nat := 0

/-- `HWTIMER_TICKS_1MS` from the enum in hwtimer.h (value 1024). -/
def HWTIMER_TICKS_1MS : Nat := 1024

/-- `HWTIMER_FREQ_32K` from the enum in hwtimer.h (value 1). -/
def HWTIMER_FREQ_32K : Nat := 1

/-- `HWTIMER_TICKS_32K` from the enum in hwtimer.h (value 32768). -/
def HWTIMER_TICKS_32K : Nat := 32768

/-- Wrap range of the 16-bit tick counter (`hwtimer_tick_t` = `uint16_t`). -/
def tickModulus : Nat := 65536

/-- Modelled from the spec: one per-timer record of the registry (spec.md
section 3 "Timer Record"), together with the hardware-visible comparator
and counter state of the peripheral that the registry drives.  `inited`
embeds the spec's `initialized` flag. -/
structure TimerRecord where
  inited : Bool
  frequency : Nat
  compare_callback : Option Nat
  overflow_callback : Option Nat
  scheduled : Bool
  counter : Nat
  compare_value : Nat
  compare_int_enabled : Bool
  compare_int_pending : Bool
  overflow_int_pending : Bool
deriving DecidableEq, Repr

/-- The registry state: the fixed table of timer records, indexed by id.
Ids at or beyond `HWTIMER_NUM` are never touched by any operation. -/
def HwState := Nat → TimerRecord

/-- A callback invocation performed from interrupt context, carrying the
identifier of the invoked callback. -/
inductive Event where
  | compare (cb : Nat)
  | overflow (cb : Nat)
deriving DecidableEq, Repr

/-- Modelled from the spec: `hw_timer_init` (hwtimer.h lines 55-72,
spec.md section 4.1).  Validates the id range (ESIZE), then the frequency
mode (EINVAL), then the already-initialised flag (EALREADY); on success it
installs the configuration, marks the record initialised and idle, and
leaves the free-running counter unaffected.  `NUM` stands for the
platform-supplied `HWTIMER_NUM`.  No callback is invoked synchronously. -/
def hw_timer_init (NUM : Nat) (s : HwState) (id freq : Nat)
    (compare_cb overflow_cb : Option Nat) : error_t × HwState × List Event :=
  if NUM ≤ id then (error_t.ESIZE, s, [])
  else if freq ≠ HWTIMER_FREQ_1MS ∧ freq ≠ HWTIMER_FREQ_32K then
    (error_t.EINVAL, s, [])
  else if (s id).inited then (error_t.EALREADY, s, [])
  else
    (error_t.SUCCESS,
     Function.update s id
       { s id with
         inited := true
         frequency := freq
         compare_callback := compare_cb
         overflow_callback := overflow_cb
         scheduled := false },
     [])

/-- Modelled from the spec: `hw_timer_getvalue` (hwtimer.h lines 74-81,
spec.md section 4.3).  Returns the current counter for a valid initialised
id and the fallback value 0 otherwise; never signals failure. -/
def hw_timer_getvalue (NUM : Nat) (s : HwState) (id : Nat) : Nat :=
  if id < NUM ∧ (s id).inited then (s id).counter else 0

/-- Modelled from the spec: `hw_timer_schedule` (hwtimer.h lines 83-108,
spec.md section 4.2).  After validation, atomically disables the
comparator interrupt, clears any pending comparator flag, programs the
comparator to `tick` (converted to the 16-bit tick type), re-enables the
interrupt and marks the timer scheduled.  The counter is not touched. -/
def hw_timer_schedule (NUM : Nat) (s : HwState) (id tick : Nat) :
    error_t × HwState × List Event :=
  if NUM ≤ id then (error_t.ESIZE, s, [])
  else if (s id).inited = false then (error_t.EOFF, s, [])
  else
    (error_t.SUCCESS,
     Function.update s id
       { s id with
         compare_value := tick % tickModulus
         compare_int_enabled := true
         compare_int_pending := false
         scheduled := true },
     [])

/-- `hw_timer_schedule_delay`, embedded from the inline definition in the
source (hwtimer.h lines 124-127): it returns
`hw_timer_schedule(timer_id, hw_timer_getvalue(timer_id) + delay)`, the
`uint16_t` sum being reduced modulo 2^16 on conversion to the tick
parameter type. -/
def hw_timer_schedule_delay (NUM : Nat) (s : HwState) (id delay : Nat) :
    error_t × HwState × List Event :=
  hw_timer_schedule NUM s id
    ((hw_timer_getvalue NUM s id + delay) % tickModulus)

/-- Modelled from the spec: `hw_timer_cancel` (hwtimer.h lines 129-138,
spec.md sections 4.2 and 5).  After the same validation as `schedule`,
disables the comparator interrupt, clears any latched pending comparator
flag, and marks the timer idle. -/
def hw_timer_cancel (NUM : Nat) (s : HwState) (id : Nat) :
    error_t × HwState × List Event :=
  if NUM ≤ id then (error_t.ESIZE, s, [])
  else if (s id).inited = false then (error_t.EOFF, s, [])
  else
    (error_t.SUCCESS,
     Function.update s id
       { s id with
         compare_int_enabled := false
         compare_int_pending := false
         scheduled := false },
     [])

/-- Modelled from the spec: `hw_timer_counter_reset` (hwtimer.h lines
140-153, spec.md section 4.2).  Resets the free-running counter to zero
and implicitly cancels any pending schedule; it never invokes
`overflow_callback` (the returned event list is empty). -/
def hw_timer_counter_reset (NUM : Nat) (s : HwState) (id : Nat) :
    error_t × HwState × List Event :=
  if NUM ≤ id then (error_t.ESIZE, s, [])
  else if (s id).inited = false then (error_t.EOFF, s, [])
  else
    (error_t.SUCCESS,
     Function.update s id
       { s id with
         counter := 0
         compare_int_enabled := false
         compare_int_pending := false
         scheduled := false },
     [])

/-- Modelled from the spec: `hw_timer_is_interrupt_pending` (hwtimer.h
lines 165-173, spec.md section 4.3): exposes the raw latched
comparator-match pending flag without clearing it. -/
def hw_timer_is_interrupt_pending (NUM : Nat) (s : HwState) (id : Nat) : Bool :=
  if id < NUM then (s id).compare_int_pending else false

/-- Modelled from the spec: `hw_timer_is_overflow_pending` (hwtimer.h
lines 155-163): exposes the raw latched overflow pending flag without
clearing it. -/
def hw_timer_is_overflow_pending (NUM : Nat) (s : HwState) (id : Nat) : Bool :=
  if id < NUM then (s id).overflow_int_pending else false

/-- Modelled from the spec: one hardware tick of a single timer peripheral
together with its interrupt dispatch (spec.md section 4.4).  The counter
advances by one modulo 2^16.  A wraparound from the maximum value to 0
invokes the installed `overflow_callback` (if any) without altering the
scheduling state.  If the comparator interrupt is enabled and the new
counter value equals the comparator register, the handler disables the
comparator interrupt, clears the pending flag, marks the record idle and
invokes the installed `compare_callback` (if any). -/
def tickRecord (r : TimerRecord) : TimerRecord × List Event :=
  let c := (r.counter + 1) % tickModulus
  let ovf : List Event :=
    if r.counter = 65535 then
      match r.overflow_callback with
      | some cb => [Event.overflow cb]
      | none => []
    else []
  if r.compare_int_enabled = true ∧ c = r.compare_value then
    ({ r with
       counter := c
       compare_int_enabled := false
       compare_int_pending := false
       scheduled := false },
     ovf ++
       (match r.compare_callback with
        | some cb => [Event.compare cb]
        | none => []))
  else ({ r with counter := c }, ovf)

/-- Iterated hardware ticks of a single record, accumulating the callback
invocations in order. -/
def tickRecordN (r : TimerRecord) : Nat → TimerRecord × List Event
  | 0 => (r, [])
  | n + 1 =>
    let p := tickRecord r
    let q := tickRecordN p.1 n
    (q.1, p.2 ++ q.2)

/-- Modelled from the spec: one hardware tick of the peripheral behind
timer `id`, lifted to the registry state.  Ids outside the table have no
peripheral and nothing happens. -/
def hw_advance (NUM : Nat) (s : HwState) (id : Nat) : HwState × List Event :=
  if id < NUM then
    let p := tickRecord (s id)
    (Function.update s id p.1, p.2)
  else (s, [])

/-- `n` successive hardware ticks of timer `id`, accumulating events. -/
def hw_advanceN (NUM : Nat) (s : HwState) (id : Nat) :
    Nat → HwState × List Event
  | 0 => (s, [])
  | n + 1 =>
    let p := hw_advance NUM s id
    let q := hw_advanceN NUM p.1 id n
    (q.1, p.2 ++ q.2)

/-- Recogniser for compare-match callback invocations. -/
def eventIsCompare : Event → Bool
  | Event.compare _ => true
  | Event.overflow _ => false

/-- Number of compare-match callback invocations in an event list. -/
def compareCount (evs : List Event) : Nat := evs.countP eventIsCompare

/-- The composition `schedule(id, getvalue(id) + delay)` written following
the spec's words for `schedule_delay` ("reads the current counter value,
adds `delay` (wrapping arithmetic), and calls `schedule` with the
result"), for comparison with the source's inline definition. -/
def schedule_delay_spec (NUM : Nat) (s : HwState) (id delay : Nat) :
    error_t × HwState × List Event :=
  hw_timer_schedule NUM s id
    ((hw_timer_getvalue NUM s id + delay) % 65536)

/-- A record with nothing configured: the reset state of one table entry. -/
def blankRecord : TimerRecord :=
  { inited := false
    frequency := 0
    compare_callback := none
    overflow_callback := none
    scheduled := false
    counter := 0
    compare_value := 0
    compare_int_enabled := false
    compare_int_pending := false
    overflow_int_pending := false }

/-- A registry state in which no timer is configured. -/
def s0 : HwState := fun _ => blankRecord

/-- A concrete record representing timer 0 after a successful `init` with
callbacks 7 (compare) and 9 (overflow), with the free-running counter at
10: used to instantiate theorems with hypotheses. -/
def readyRecord : TimerRecord :=
  { inited := true
    frequency := HWTIMER_FREQ_1MS
    compare_callback := some 7
    overflow_callback := some 9
    scheduled := false
    counter := 10
    compare_value := 0
    compare_int_enabled := false
    compare_int_pending := false
    overflow_int_pending := false }

/-- A registry state holding `readyRecord` at every id. -/
def sReady : HwState := fun _ => readyRecord

/-- Like `readyRecord` but with the counter one tick before the wrap
boundary. -/
def wrapRecord : TimerRecord :=
  { readyRecord with counter := 65535 }

/-- A registry state holding `wrapRecord` at every id. -/
def sWrap : HwState := fun _ => wrapRecord

/-- C1: `hw_timer_schedule_delay(id, delay)` is exactly
`hw_timer_schedule(id, (hw_timer_getvalue(id) + delay) mod 2^16)` — the
source's inline definition coincides, on every state, id and delay, with
the spec's composition, the addition wrapping in the 16-bit tick type,
with no further effect on the result. -/
theorem schedule_delay_is_composition (NUM : Nat) (s : HwState)
    (id delay : Nat) :
    hw_timer_schedule_delay NUM s id delay =
      schedule_delay_spec NUM s id delay := by
  rfl

/-- C9: `hw_timer_getvalue` never signals failure: it returns the current
counter for an in-range initialised id and exactly 0 for an out-of-range
id or an uninitialised timer. -/
theorem getvalue_never_fails (NUM : Nat) (s : HwState) (id : Nat) :
    (id < NUM → (s id).inited = true →
      hw_timer_getvalue NUM s id = (s id).counter) ∧
    (NUM ≤ id → hw_timer_getvalue NUM s id = 0) ∧
    ((s id).inited = false → hw_timer_getvalue NUM s id = 0) := by
  refine ⟨fun h1 h2 => ?_, fun h1 => ?_, fun h1 => ?_⟩
  · simp [hw_timer_getvalue, h1, h2]
  · simp only [hw_timer_getvalue]
    rw [if_neg]
    rintro ⟨h2, _⟩
    omega
  · simp only [hw_timer_getvalue]
    rw [if_neg]
    rintro ⟨_, h2⟩
    simp [h1] at h2

/-- Witness for C9 at concrete inputs (with `HWTIMER_NUM` = 4, matching
the spec's scenario `get_value(99) = 0`). -/
theorem getvalue_never_fails_witness :
    ((0 : Nat) < 4 ∧ (sReady 0).inited = true ∧
      hw_timer_getvalue 4 sReady 0 = (sReady 0).counter) ∧
    ((4 : Nat) ≤ 99 ∧ hw_timer_getvalue 4 sReady 99 = 0) ∧
    ((s0 2).inited = false ∧ hw_timer_getvalue 4 s0 2 = 0) :=
  ⟨⟨by decide, by decide,
    (getvalue_never_fails 4 sReady 0).1 (by decide) (by decide)⟩,
   ⟨by decide, (getvalue_never_fails 4 sReady 99).2.1 (by decide)⟩,
   ⟨by decide, (getvalue_never_fails 4 s0 2).2.2 (by decide)⟩⟩

/-- C8: for every id outside `[0, HWTIMER_NUM)`, each lifecycle and
scheduling operation returns ESIZE, leaves the whole registry state
unchanged, and invokes no callback. -/
theorem out_of_range_no_effect (NUM : Nat) (s : HwState)
    (id freq tick delay : Nat) (ccb ocb : Option Nat) (hid : NUM ≤ id) :
    hw_timer_init NUM s id freq ccb ocb = (error_t.ESIZE, s, []) ∧
    hw_timer_schedule NUM s id tick = (error_t.ESIZE, s, []) ∧
    hw_timer_schedule_delay NUM s id delay = (error_t.ESIZE, s, []) ∧
    hw_timer_cancel NUM s id = (error_t.ESIZE, s, []) ∧
    hw_timer_counter_reset NUM s id = (error_t.ESIZE, s, []) := by
  refine ⟨?_, ?_, ?_, ?_, ?_⟩ <;>
    simp [hw_timer_init, hw_timer_schedule, hw_timer_schedule_delay,
      hw_timer_cancel, hw_timer_counter_reset, hid]

/-- Witness for C8 at a concrete out-of-range id. -/
theorem out_of_range_no_effect_witness :
    (4 : Nat) ≤ 99 ∧
    hw_timer_schedule 4 s0 99 5 = (error_t.ESIZE, s0, []) :=
  ⟨by decide,
   (out_of_range_no_effect 4 s0 99 0 5 3 none none (by decide)).2.1⟩

/-- C2: for a valid initialised id, `schedule` followed by `cancel` leaves
no observable comparator pending flag: `hw_timer_is_interrupt_pending`
returns false afterwards, because `cancel` clears the latched flag. -/
theorem cancel_clears_pending (NUM : Nat) (s : HwState) (id t : Nat)
    (hid : id < NUM) (hinit : (s id).inited = true) :
    hw_timer_is_interrupt_pending NUM
      (hw_timer_cancel NUM (hw_timer_schedule NUM s id t).2.1 id).2.1 id
      = false := by
  have hn : ¬ NUM ≤ id := by omega
  simp [hw_timer_schedule, hw_timer_cancel, hw_timer_is_interrupt_pending,
    hn, hid, hinit, Function.update_same]

/-- Witness for C2 at concrete inputs. -/
theorem cancel_clears_pending_witness :
    (0 : Nat) < 4 ∧ (sReady 0).inited = true ∧
    hw_timer_is_interrupt_pending 4
      (hw_timer_cancel 4 (hw_timer_schedule 4 sReady 0 100).2.1 0).2.1 0
      = false :=
  ⟨by decide, by decide,
   cancel_clears_pending 4 sReady 0 100 (by decide) (by decide)⟩

/-- C10: on an out-of-range or uninitialised id, `hw_timer_schedule_delay`
passes `delay` itself to `hw_timer_schedule` (the getvalue fallback is 0),
returns exactly the error `hw_timer_schedule` reports there (ESIZE for
out-of-range, EOFF for uninitialised), and changes no state. -/
theorem schedule_delay_error_passthrough (NUM : Nat) (s : HwState)
    (id delay : Nat) (hdelay : delay < 65536)
    (hbad : NUM ≤ id ∨ (s id).inited = false) :
    hw_timer_schedule_delay NUM s id delay =
      hw_timer_schedule NUM s id delay ∧
    (hw_timer_schedule_delay NUM s id delay).1 =
      (if NUM ≤ id then error_t.ESIZE else error_t.EOFF) ∧
    (hw_timer_schedule_delay NUM s id delay).2.1 = s := by
  have hg : hw_timer_getvalue NUM s id = 0 := by
    rcases hbad with h | h
    · simp only [hw_timer_getvalue]
      rw [if_neg]
      rintro ⟨h2, _⟩
      omega
    · simp [hw_timer_getvalue, h]
  have he : hw_timer_schedule_delay NUM s id delay =
      hw_timer_schedule NUM s id delay := by
    rw [hw_timer_schedule_delay, hg]
    have : (0 + delay) % tickModulus = delay := by
      simp [tickModulus]
      omega
    rw [this]
  refine ⟨he, ?_, ?_⟩ <;> rw [he]
  · by_cases hc : NUM ≤ id
    · simp [hw_timer_schedule, hc]
    · have hi : (s id).inited = false := by tauto
      simp [hw_timer_schedule, hc, hi]
  · by_cases hc : NUM ≤ id
    · simp [hw_timer_schedule, hc]
    · have hi : (s id).inited = false := by tauto
      simp [hw_timer_schedule, hc, hi]

/-- Witness for C10: out-of-range id 99 with `HWTIMER_NUM` = 4. -/
theorem schedule_delay_error_passthrough_witness :
    (5 : Nat) < 65536 ∧ ((4 : Nat) ≤ 99 ∨ (s0 99).inited = false) ∧
    hw_timer_schedule_delay 4 s0 99 5 = hw_timer_schedule 4 s0 99 5 :=
  ⟨by decide, Or.inl (by decide),
   (schedule_delay_error_passthrough 4 s0 99 5 (by decide)
     (Or.inl (by decide))).1⟩

/-- Steps until the comparator of `r` first matches: the counter first
equals `compare_value` after this many ticks. -/
def fireDelay (r : TimerRecord) : Nat :=
  (r.compare_value + 65535 - r.counter) % 65536 + 1

lemma compareCount_append (a b : List Event) :
    compareCount (a ++ b) = compareCount a + compareCount b := by
  simp [compareCount, List.countP_append]

lemma tickRecord_fst_counter (r : TimerRecord) :
    (tickRecord r).1.counter = (r.counter + 1) % tickModulus := by
  simp only [tickRecord]
  split <;> rfl

lemma tickRecord_no_match (r : TimerRecord)
    (h : ¬(r.compare_int_enabled = true ∧
      (r.counter + 1) % tickModulus = r.compare_value)) :
    (tickRecord r).1 = { r with counter := (r.counter + 1) % tickModulus } ∧
    compareCount (tickRecord r).2 = 0 := by
  constructor
  · simp only [tickRecord]
    rw [if_neg h]
  · simp only [tickRecord]
    rw [if_neg h]
    by_cases h2 : r.counter = 65535 <;>
      cases hcb : r.overflow_callback <;>
        simp [h2, hcb, compareCount, eventIsCompare]

lemma tickRecord_match (r : TimerRecord) (cb : Nat)
    (hen : r.compare_int_enabled = true)
    (hm : (r.counter + 1) % tickModulus = r.compare_value)
    (hcb : r.compare_callback = some cb) :
    (tickRecord r).1 =
      { r with
        counter := (r.counter + 1) % tickModulus
        compare_int_enabled := false
        compare_int_pending := false
        scheduled := false } ∧
    compareCount (tickRecord r).2 = 1 := by
  constructor
  · simp only [tickRecord]
    rw [if_pos ⟨hen, hm⟩]
  · simp only [tickRecord]
    rw [if_pos ⟨hen, hm⟩]
    by_cases h2 : r.counter = 65535 <;>
      cases hocb : r.overflow_callback <;>
        simp [h2, hocb, hcb, compareCount, eventIsCompare,
          List.countP_append]

lemma tickRecordN_disabled : ∀ (n : Nat) (r : TimerRecord),
    r.compare_int_enabled = false →
    (tickRecordN r n).1.compare_int_enabled = false ∧
    (tickRecordN r n).1.scheduled = r.scheduled ∧
    compareCount (tickRecordN r n).2 = 0
  | 0, r, h => ⟨h, rfl, rfl⟩
  | n + 1, r, h => by
    have hnm : ¬(r.compare_int_enabled = true ∧
        (r.counter + 1) % tickModulus = r.compare_value) := by
      rintro ⟨h1, _⟩
      rw [h] at h1
      exact Bool.false_ne_true h1
    obtain ⟨hst, hcnt⟩ := tickRecord_no_match r hnm
    have hen : (tickRecord r).1.compare_int_enabled = false := by
      rw [hst]
      exact h
    have hsched : (tickRecord r).1.scheduled = r.scheduled := by rw [hst]
    have ih := tickRecordN_disabled n (tickRecord r).1 hen
    refine ⟨ih.1, ?_, ?_⟩
    · show (tickRecordN (tickRecord r).1 n).1.scheduled = r.scheduled
      rw [ih.2.1, hsched]
    · show compareCount ((tickRecord r).2 ++ (tickRecordN (tickRecord r).1 n).2) = 0
      rw [compareCount_append, hcnt, ih.2.2]

lemma tickRecordN_counter : ∀ (n : Nat) (r : TimerRecord),
    r.counter < 65536 →
    (tickRecordN r n).1.counter = (r.counter + n) % 65536
  | 0, r, h => by
    simp only [tickRecordN, Nat.add_zero]
    omega
  | n + 1, r, h => by
    have h1 : (tickRecord r).1.counter = (r.counter + 1) % tickModulus :=
      tickRecord_fst_counter r
    have ih := tickRecordN_counter n (tickRecord r).1
      (by rw [h1]; simp only [tickModulus]; omega)
    show (tickRecordN (tickRecord r).1 n).1.counter = _
    rw [ih, h1]
    simp only [tickModulus]
    omega

lemma tickRecordN_single_fire : ∀ (n : Nat) (r : TimerRecord) (cb : Nat),
    r.compare_int_enabled = true → r.compare_callback = some cb →
    r.counter < 65536 → r.compare_value < 65536 →
    compareCount (tickRecordN r n).2 = (if fireDelay r ≤ n then 1 else 0) ∧
    (fireDelay r ≤ n →
      (tickRecordN r n).1.compare_int_enabled = false ∧
      (tickRecordN r n).1.scheduled = false)
  | 0, r, cb, hen, hcb, hc, hv => by
    have hd : 1 ≤ fireDelay r := by simp only [fireDelay]; omega
    constructor
    · rw [if_neg (by omega)]
      rfl
    · intro h
      omega
  | n + 1, r, cb, hen, hcb, hc, hv => by
    by_cases hm : (r.counter + 1) % tickModulus = r.compare_value
    · -- the comparator matches at this tick: the timer fires and disables
      have hd : fireDelay r = 1 := by
        simp only [fireDelay, tickModulus] at *
        omega
      obtain ⟨hst, hcnt⟩ := tickRecord_match r cb hen hm hcb
      have hdis := tickRecordN_disabled n (tickRecord r).1 (by rw [hst])
      constructor
      · simp only [tickRecordN, compareCount_append, hcnt, hdis.2.2]
        rw [if_pos (by omega)]
      · intro _
        refine ⟨hdis.1, ?_⟩
        show (tickRecordN (tickRecord r).1 n).1.scheduled = false
        rw [hdis.2.1, hst]
  
    · -- no match yet: the fire distance shrinks by one
      have hnm : ¬(r.compare_int_enabled = true ∧
          (r.counter + 1) % tickModulus = r.compare_value) := by
        rintro ⟨_, h2⟩
        exact hm h2
      obtain ⟨hst, hcnt⟩ := tickRecord_no_match r hnm
      have hgt : 2 ≤ fireDelay r := by
        simp only [fireDelay, tickModulus] at *
        omega
      have hdec : fireDelay (tickRecord r).1 = fireDelay r - 1 := by
        rw [hst]
        simp only [fireDelay, tickModulus] at *
        omega
      have ih := tickRecordN_single_fire n (tickRecord r).1 cb
        (by rw [hst]; exact hen) (by rw [hst]; exact hcb)
        (by rw [hst]; simp only [tickModulus]; omega) (by rw [hst]; exact hv)
      constructor
      · show compareCount ((tickRecord r).2 ++ (tickRecordN (tickRecord r).1 n).2) = _
        rw [compareCount_append, hcnt, ih.1, hdec]
        have : (if fireDelay r - 1 ≤ n then 1 else 0) =
            (if fireDelay r ≤ n + 1 then 1 else 0) := by
          by_cases hle : fireDelay r ≤ n + 1
          · rw [if_pos hle, if_pos (by omega)]
          · rw [if_neg hle, if_neg (by omega)]
        omega
      · intro h
        have := ih.2 (by omega)
        exact this

lemma hw_advanceN_eq (NUM id : Nat) (hid : id < NUM) : ∀ (n : Nat) (s : HwState),
    (hw_advanceN NUM s id n).1 id = (tickRecordN (s id) n).1 ∧
    (hw_advanceN NUM s id n).2 = (tickRecordN (s id) n).2
  | 0, s => ⟨rfl, rfl⟩
  | n + 1, s => by
    have hadv : hw_advance NUM s id =
        (Function.update s id (tickRecord (s id)).1, (tickRecord (s id)).2) := by
      simp [hw_advance, hid]
    have hup : (Function.update s id (tickRecord (s id)).1) id =
        (tickRecord (s id)).1 := Function.update_same id _ s
    have ih := hw_advanceN_eq NUM id hid n (Function.update s id (tickRecord (s id)).1)
    constructor
    · show (hw_advanceN NUM (hw_advance NUM s id).1 id n).1 id = _
      rw [hadv]
      rw [ih.1, hup]
      rfl
    · show (hw_advance NUM s id).2 ++ (hw_advanceN NUM (hw_advance NUM s id).1 id n).2 = _
      rw [hadv]
      show (tickRecord (s id)).2 ++ _ = _
      rw [ih.2, hup]
      rfl

lemma schedule_state (NUM : Nat) (s : HwState) (id tick : Nat)
    (hid : id < NUM) (hinit : (s id).inited = true) :
    (hw_timer_schedule NUM s id tick).1 = error_t.SUCCESS ∧
    (hw_timer_schedule NUM s id tick).2.1 id =
      { s id with
        compare_value := tick % tickModulus
        compare_int_enabled := true
        compare_int_pending := false
        scheduled := true } := by
  have hn : ¬ NUM ≤ id := by omega
  constructor <;> simp [hw_timer_schedule, hn, hinit, Function.update_same]

/-- C3: after a successful `hw_timer_schedule(id, T)`, the counter
reaching `T` causes exactly one invocation of the registered
`compare_callback` — over any number `n` of hardware ticks the number of
compare invocations is 1 once the fire point `(T + 65535 - counter) %
65536 + 1` has been passed and 0 before it — and from the fire point on
the timer is Idle (comparator interrupt disabled, `scheduled = false`), so
a later pass through `T` cannot re-fire without a new `schedule`. -/
theorem schedule_single_shot (NUM : Nat) (s : HwState) (id T cb n : Nat)
    (hid : id < NUM) (hinit : (s id).inited = true)
    (hcb : (s id).compare_callback = some cb)
    (hc : (s id).counter < 65536) (hT : T < 65536) :
    (hw_timer_schedule NUM s id T).1 = error_t.SUCCESS ∧
    compareCount (hw_advanceN NUM (hw_timer_schedule NUM s id T).2.1 id n).2 =
      (if (T + 65535 - (s id).counter) % 65536 + 1 ≤ n then 1 else 0) ∧
    ((T + 65535 - (s id).counter) % 65536 + 1 ≤ n →
      ((hw_advanceN NUM (hw_timer_schedule NUM s id T).2.1 id n).1 id).compare_int_enabled
        = false ∧
      ((hw_advanceN NUM (hw_timer_schedule NUM s id T).2.1 id n).1 id).scheduled
        = false) := by
  obtain ⟨hok, hrec⟩ := schedule_state NUM s id T hid hinit
  have hTm : T % tickModulus = T := by
    simp only [tickModulus]
    omega
  have hfire := tickRecordN_single_fire n ((hw_timer_schedule NUM s id T).2.1 id) cb
    (by rw [hrec]) (by rw [hrec]; exact hcb)
    (by rw [hrec]; exact hc) (by rw [hrec]; rw [hTm]; exact hT)
  have hd : fireDelay ((hw_timer_schedule NUM s id T).2.1 id) =
      (T + 65535 - (s id).counter) % 65536 + 1 := by
    rw [hrec]
    simp only [fireDelay, hTm]
  obtain ⟨heq1, heq2⟩ := hw_advanceN_eq NUM id hid n (hw_timer_schedule NUM s id T).2.1
  refine ⟨hok, ?_, ?_⟩
  · rw [heq2, hfire.1, hd]
  · intro h
    have := hfire.2 (by rw [hd]; exact h)
    rw [heq1]
    exact this

/-- Witness for C3 with `HWTIMER_NUM` = 4: timer 0 of `sReady` (counter
10) scheduled for tick 12 fires within 3 ticks, exactly once. -/
theorem schedule_single_shot_witness :
    (0 : Nat) < 4 ∧ (sReady 0).inited = true ∧
    (sReady 0).compare_callback = some 7 ∧
    (sReady 0).counter < 65536 ∧ (12 : Nat) < 65536 ∧
    compareCount (hw_advanceN 4 (hw_timer_schedule 4 sReady 0 12).2.1 0 3).2 =
      (if (12 + 65535 - (sReady 0).counter) % 65536 + 1 ≤ 3 then 1 else 0) :=
  ⟨by decide, by decide, by decide, by decide, by decide,
   (schedule_single_shot 4 sReady 0 12 7 3 (by decide) (by decide) (by decide)
     (by decide) (by decide)).2.1⟩

/-- C5: scheduling a tick numerically below the current counter defers
firing until after the wraparound: no compare invocation occurs in the
first `65536 - counter + T - 1` ticks (in particular none immediately),
exactly one has occurred at any later tick count, and at the fire step the
counter has wrapped around and equals `T`. -/
theorem schedule_past_tick_defers (NUM : Nat) (s : HwState) (id T cb n : Nat)
    (hid : id < NUM) (hinit : (s id).inited = true)
    (hcb : (s id).compare_callback = some cb)
    (hc : (s id).counter < 65536) (hT : T < (s id).counter) :
    (n < 65536 - (s id).counter + T →
      compareCount (hw_advanceN NUM (hw_timer_schedule NUM s id T).2.1 id n).2 = 0) ∧
    (65536 - (s id).counter + T ≤ n →
      compareCount (hw_advanceN NUM (hw_timer_schedule NUM s id T).2.1 id n).2 = 1) ∧
    ((hw_advanceN NUM (hw_timer_schedule NUM s id T).2.1 id
        (65536 - (s id).counter + T)).1 id).counter = T := by
  have hT65 : T < 65536 := by omega
  obtain ⟨hok, hrec⟩ := schedule_state NUM s id T hid hinit
  have hTm : T % tickModulus = T := by
    simp only [tickModulus]
    omega
  have hd : fireDelay ((hw_timer_schedule NUM s id T).2.1 id) =
      65536 - (s id).counter + T := by
    rw [hrec]
    simp only [fireDelay, hTm]
    omega
  have hfire := fun m => tickRecordN_single_fire m
    ((hw_timer_schedule NUM s id T).2.1 id) cb
    (by rw [hrec]) (by rw [hrec]; exact hcb)
    (by rw [hrec]; exact hc) (by rw [hrec]; rw [hTm]; exact hT65)
  refine ⟨?_, ?_, ?_⟩
  · intro h
    obtain ⟨heq1, heq2⟩ := hw_advanceN_eq NUM id hid n (hw_timer_schedule NUM s id T).2.1
    rw [heq2, (hfire n).1, hd, if_neg (by omega)]
  · intro h
    obtain ⟨heq1, heq2⟩ := hw_advanceN_eq NUM id hid n (hw_timer_schedule NUM s id T).2.1
    rw [heq2, (hfire n).1, hd, if_pos (by omega)]
  · obtain ⟨heq1, heq2⟩ := hw_advanceN_eq NUM id hid (65536 - (s id).counter + T)
      (hw_timer_schedule NUM s id T).2.1
    rw [heq1]
    rw [tickRecordN_counter _ _ (by rw [hrec]; exact hc)]
    rw [hrec]
    show ((s id).counter + (65536 - (s id).counter + T)) % 65536 = T
    omega

/-- Witness for C5: timer 0 of `sWrap` sits at counter 65535; scheduling
tick 2 (below the counter) fires only after the wrap, by tick 4. -/
theorem schedule_past_tick_defers_witness :
    (0 : Nat) < 4 ∧ (sWrap 0).inited = true ∧
    (sWrap 0).compare_callback = some 7 ∧
    (sWrap 0).counter < 65536 ∧ (2 : Nat) < (sWrap 0).counter ∧
    compareCount (hw_advanceN 4 (hw_timer_schedule 4 sWrap 0 2).2.1 0 4).2 = 1 :=
  ⟨by decide, by decide, by decide, by decide, by decide,
   (schedule_past_tick_defers 4 sWrap 0 2 7 4 (by decide) (by decide)
     (by decide) (by decide) (by decide)).2.1 (by decide)⟩

/-- C4: a natural wraparound (the counter advancing from 65535 to 0)
invokes the installed `overflow_callback` regardless of the scheduling
state; the overflow path does not alter `scheduled` (when no simultaneous
comparator match fires at tick 0, `scheduled` is unchanged by the step);
and `hw_timer_counter_reset` invokes no callback at all, even at the wrap
boundary. -/
theorem overflow_always_notifies (NUM : Nat) (s : HwState) (id cb : Nat)
    (hid : id < NUM) (hinit : (s id).inited = true)
    (hcb : (s id).overflow_callback = some cb)
    (hc : (s id).counter = 65535) :
    Event.overflow cb ∈ (hw_advance NUM s id).2 ∧
    (¬((s id).compare_int_enabled = true ∧ (s id).compare_value = 0) →
      ((hw_advance NUM s id).1 id).scheduled = (s id).scheduled) ∧
    (hw_timer_counter_reset NUM s id).2.2 = [] := by
  have hadv : hw_advance NUM s id =
      (Function.update s id (tickRecord (s id)).1, (tickRecord (s id)).2) := by
    simp [hw_advance, hid]
  have hc1 : ((s id).counter + 1) % tickModulus = 0 := by
    rw [hc]
    rfl
  refine ⟨?_, ?_, ?_⟩
  · rw [hadv]
    show Event.overflow cb ∈ (tickRecord (s id)).2
    simp only [tickRecord]
    split
    · refine List.mem_append_left _ ?_
      simp [hc, hcb]
    · simp [hc, hcb]
  · intro hnm
    have hnm' : ¬((s id).compare_int_enabled = true ∧
        ((s id).counter + 1) % tickModulus = (s id).compare_value) := by
      rintro ⟨h1, h2⟩
      rw [hc1] at h2
      exact hnm ⟨h1, h2.symm⟩
    obtain ⟨hst, _⟩ := tickRecord_no_match (s id) hnm'
    rw [hadv]
    show ((Function.update s id (tickRecord (s id)).1) id).scheduled = (s id).scheduled
    rw [Function.update_same, hst]
  · have hn : ¬ NUM ≤ id := by omega
    simp [hw_timer_counter_reset, hn, hinit]

/-- Witness for C4: timer 0 of `sWrap` at the wrap boundary with overflow
callback 9 installed. -/
theorem overflow_always_notifies_witness :
    (0 : Nat) < 4 ∧ (sWrap 0).inited = true ∧
    (sWrap 0).overflow_callback = some 9 ∧ (sWrap 0).counter = 65535 ∧
    Event.overflow 9 ∈ (hw_advance 4 sWrap 0).2 :=
  ⟨by decide, by decide, by decide, by decide,
   (overflow_always_notifies 4 sWrap 0 9 (by decide) (by decide) (by decide)
     (by decide)).1⟩

/-- C6: `hw_timer_init` returns ESIZE for an out-of-range id, EINVAL for
an in-range id with a frequency other than `HWTIMER_FREQ_1MS` or
`HWTIMER_FREQ_32K`, EALREADY for an in-range id with a supported
frequency whose record is already configured, and SUCCESS otherwise; on
success the record is marked configured and idle and the free-running
counter is unaffected. -/
theorem init_validation (NUM : Nat) (s : HwState) (id freq : Nat)
    (ccb ocb : Option Nat) :
    (NUM ≤ id → (hw_timer_init NUM s id freq ccb ocb).1 = error_t.ESIZE) ∧
    (id < NUM → freq ≠ HWTIMER_FREQ_1MS → freq ≠ HWTIMER_FREQ_32K →
      (hw_timer_init NUM s id freq ccb ocb).1 = error_t.EINVAL) ∧
    (id < NUM → (freq = HWTIMER_FREQ_1MS ∨ freq = HWTIMER_FREQ_32K) →
      (s id).inited = true →
      (hw_timer_init NUM s id freq ccb ocb).1 = error_t.EALREADY) ∧
    (id < NUM → (freq = HWTIMER_FREQ_1MS ∨ freq = HWTIMER_FREQ_32K) →
      (s id).inited = false →
      (hw_timer_init NUM s id freq ccb ocb).1 = error_t.SUCCESS ∧
      ((hw_timer_init NUM s id freq ccb ocb).2.1 id).inited = true ∧
      ((hw_timer_init NUM s id freq ccb ocb).2.1 id).scheduled = false ∧
      ((hw_timer_init NUM s id freq ccb ocb).2.1 id).counter = (s id).counter) := by
  refine ⟨fun h1 => ?_, fun h1 h2 h3 => ?_, fun h1 h2 h3 => ?_, fun h1 h2 h3 => ?_⟩
  · simp [hw_timer_init, h1]
  · have hn : ¬ NUM ≤ id := by omega
    simp [hw_timer_init, hn, h2, h3]
  · have hn : ¬ NUM ≤ id := by omega
    have hf : ¬ (freq ≠ HWTIMER_FREQ_1MS ∧ freq ≠ HWTIMER_FREQ_32K) := by tauto
    simp only [hw_timer_init, if_neg hn, if_neg hf, h3]
    rfl
  · have hn : ¬ NUM ≤ id := by omega
    have hf : ¬ (freq ≠ HWTIMER_FREQ_1MS ∧ freq ≠ HWTIMER_FREQ_32K) := by tauto
    simp only [hw_timer_init, if_neg hn, if_neg hf, h3]
    simp [Function.update_same]

/-- Witness for C6, exercising all four outcomes at concrete inputs
(`HWTIMER_NUM` = 4): id 99 is out of range, frequency 7 is unsupported,
timer 1 of `sReady` is already configured, and timer 2 of the blank state
initialises successfully. -/
theorem init_validation_witness :
    ((4 : Nat) ≤ 99 ∧
      (hw_timer_init 4 s0 99 HWTIMER_FREQ_1MS none none).1 = error_t.ESIZE) ∧
    ((0 : Nat) < 4 ∧ (7 : Nat) ≠ HWTIMER_FREQ_1MS ∧ (7 : Nat) ≠ HWTIMER_FREQ_32K ∧
      (hw_timer_init 4 s0 0 7 none none).1 = error_t.EINVAL) ∧
    ((1 : Nat) < 4 ∧ (sReady 1).inited = true ∧
      (hw_timer_init 4 sReady 1 HWTIMER_FREQ_32K none none).1 = error_t.EALREADY) ∧
    ((2 : Nat) < 4 ∧ (s0 2).inited = false ∧
      (hw_timer_init 4 s0 2 HWTIMER_FREQ_1MS (some 7) (some 9)).1 = error_t.SUCCESS ∧
      ((hw_timer_init 4 s0 2 HWTIMER_FREQ_1MS (some 7) (some 9)).2.1 2).inited = true) :=
  ⟨⟨by decide,
    (init_validation 4 s0 99 HWTIMER_FREQ_1MS none none).1 (by decide)⟩,
   ⟨by decide, by decide, by decide,
    (init_validation 4 s0 0 7 none none).2.1 (by decide) (by decide) (by decide)⟩,
   ⟨by decide, by decide,
    (init_validation 4 sReady 1 HWTIMER_FREQ_32K none none).2.2.1 (by decide)
      (Or.inr rfl) (by decide)⟩,
   ⟨by decide, by decide,
    ((init_validation 4 s0 2 HWTIMER_FREQ_1MS (some 7) (some 9)).2.2.2 (by decide)
      (Or.inl rfl) (by decide)).1,
    ((init_validation 4 s0 2 HWTIMER_FREQ_1MS (some 7) (some 9)).2.2.2 (by decide)
      (Or.inl rfl) (by decide)).2.1⟩⟩

/-- C7: a successful `hw_timer_init` followed by a second `hw_timer_init`
on the same id (with any supported frequency and any callbacks) returns
EALREADY, changes no state at all, and the record keeps exactly the
frequency mode and both callbacks installed by the first call. -/
theorem double_init_rejected (NUM : Nat) (s : HwState) (id freq freq2 : Nat)
    (ccb ocb ccb2 ocb2 : Option Nat) (hid : id < NUM)
    (hfreq : freq = HWTIMER_FREQ_1MS ∨ freq = HWTIMER_FREQ_32K)
    (hfreq2 : freq2 = HWTIMER_FREQ_1MS ∨ freq2 = HWTIMER_FREQ_32K)
    (hfresh : (s id).inited = false) :
    (hw_timer_init NUM s id freq ccb ocb).1 = error_t.SUCCESS ∧
    (hw_timer_init NUM (hw_timer_init NUM s id freq ccb ocb).2.1
      id freq2 ccb2 ocb2).1 = error_t.EALREADY ∧
    (hw_timer_init NUM (hw_timer_init NUM s id freq ccb ocb).2.1
      id freq2 ccb2 ocb2).2.1 = (hw_timer_init NUM s id freq ccb ocb).2.1 ∧
    ((hw_timer_init NUM (hw_timer_init NUM s id freq ccb ocb).2.1
      id freq2 ccb2 ocb2).2.1 id).frequency = freq ∧
    ((hw_timer_init NUM (hw_timer_init NUM s id freq ccb ocb).2.1
      id freq2 ccb2 ocb2).2.1 id).compare_callback = ccb ∧
    ((hw_timer_init NUM (hw_timer_init NUM s id freq ccb ocb).2.1
      id freq2 ccb2 ocb2).2.1 id).overflow_callback = ocb := by
  have hn : ¬ NUM ≤ id := by omega
  have hf : ¬ (freq ≠ HWTIMER_FREQ_1MS ∧ freq ≠ HWTIMER_FREQ_32K) := by tauto
  have hf2 : ¬ (freq2 ≠ HWTIMER_FREQ_1MS ∧ freq2 ≠ HWTIMER_FREQ_32K) := by tauto
  have h1 : (hw_timer_init NUM s id freq ccb ocb).2.1 id =
      { s id with
        inited := true
        frequency := freq
        compare_callback := ccb
        overflow_callback := ocb
        scheduled := false } := by
    simp only [hw_timer_init, if_neg hn, if_neg hf, hfresh]
    simp [Function.update_same]
  have hok : (hw_timer_init NUM s id freq ccb ocb).1 = error_t.SUCCESS := by
    simp only [hw_timer_init, if_neg hn, if_neg hf, hfresh]
    rfl
  have h2 : ((hw_timer_init NUM s id freq ccb ocb).2.1 id).inited = true := by
    rw [h1]
  have hal : hw_timer_init NUM (hw_timer_init NUM s id freq ccb ocb).2.1
      id freq2 ccb2 ocb2 =
      (error_t.EALREADY, (hw_timer_init NUM s id freq ccb ocb).2.1, []) := by
    generalize (hw_timer_init NUM s id freq ccb ocb).2.1 = t at h2
    simp only [hw_timer_init, if_neg hn, if_neg hf2, h2]
    simp
  refine ⟨hok, ?_, ?_, ?_, ?_, ?_⟩
  · rw [hal]
  · rw [hal]
  · rw [hal]
    show ((hw_timer_init NUM s id freq ccb ocb).2.1 id).frequency = freq
    rw [h1]
  · rw [hal]
    show ((hw_timer_init NUM s id freq ccb ocb).2.1 id).compare_callback = ccb
    rw [h1]
  · rw [hal]
    show ((hw_timer_init NUM s id freq ccb ocb).2.1 id).overflow_callback = ocb
    rw [h1]

/-- Witness for C7 at concrete inputs: timer 0 of the blank state,
configured at the 1 ms rate, then re-initialised at the 32 kHz rate with
different callbacks. -/
theorem double_init_rejected_witness :
    (0 : Nat) < 4 ∧ (s0 0).inited = false ∧
    (hw_timer_init 4 (hw_timer_init 4 s0 0 HWTIMER_FREQ_1MS (some 7) (some 9)).2.1
      0 HWTIMER_FREQ_32K (some 5) (some 6)).1 = error_t.EALREADY :=
  ⟨by decide, by decide,
   (double_init_rejected 4 s0 0 HWTIMER_FREQ_1MS HWTIMER_FREQ_32K
     (some 7) (some 9) (some 5) (some 6) (by decide) (Or.inl rfl) (Or.inr rfl)
     (by decide)).2.1⟩
